import Mathlib

/-!
Verification of the iOS-simulator MCP server (ios_simulator_mcp_server.py).

The development shallowly embeds the server: Python dictionaries and JSON
values become the inductive type `JSON`; Python dictionary access that can
raise (`d[k]`, `.get` on a non-dictionary) becomes `Except`-valued lookup;
the external subprocess world is an injectable function from an argument
vector to a process outcome, and `run_command` normalizes that outcome the
way the Python function does.  The `json` standard-library codec used by
`list_devices` and the transport loop is injected as `PyEnv`.
-/

/-- JSON values, also standing for the Python objects the server passes
around (dictionaries, lists, strings, numbers, booleans, None). -/
inductive JSON where
  | null
  | bool (b : Bool)
  | int (n : Int)
  | str (s : String)
  | arr (elems : List JSON)
  | obj (fields : List (String × JSON))

/-- A single-quoted rendering of a string, as Python `repr` produces for
`str` values and `str(KeyError(k))` produces for a missing key `k`
(escape sequences elided; no theorem depends on them). -/
def squote (s : String) : String :=
  String.singleton (Char.ofNat 39) ++ s ++ String.singleton (Char.ofNat 39)

mutual

/-- Python `repr` of a value (used inside container renderings). -/
def pyRepr : JSON → String
  | .null => "None"
  | .bool b => if b then "True" else "False"
  | .int n => toString n
  | .str s => squote s
  | .arr xs => "[" ++ pyReprElems xs ++ "]"
  | .obj kvs => "\x7b" ++ pyReprFields kvs ++ "\x7d"

/-- Comma-separated reprs of list elements. -/
def pyReprElems : List JSON → String
  | [] => ""
  | [x] => pyRepr x
  | x :: xs => pyRepr x ++ ", " ++ pyReprElems xs

/-- Comma-separated reprs of dictionary entries. -/
def pyReprFields : List (String × JSON) → String
  | [] => ""
  | [(k, v)] => squote k ++ ": " ++ pyRepr v
  | (k, v) :: kvs => squote k ++ ": " ++ pyRepr v ++ ", " ++ pyReprFields kvs

end

/-- Python `str` of a value, as an f-string interpolates it: identical to
`repr` except on strings, which are rendered verbatim. -/
def pyStr : JSON → String
  | .str s => s
  | j => pyRepr j

/-- Interpolation of an optional value (a `dict.get` result): Python
renders an absent value as `None`. -/
def pyStrOpt : Option JSON → String
  | none => "None"
  | some j => pyStr j

/-- First-match association lookup, the contents of a Python dictionary. -/
def lookupKv : List (String × JSON) → String → Option JSON
  | [], _ => none
  | (k, v) :: rest, key => if k == key then some v else lookupKv rest key

/-- Non-faulting observation of an object field (used to state theorems
about response shapes). -/
def JSON.lookup : JSON → String → Option JSON
  | .obj kvs, key => lookupKv kvs key
  | _, _ => none

/-- Python `x.get(k)`: returns the value or `None` on a dictionary, and
raises `AttributeError` when `x` is not a dictionary (the exact Python
message names the receiver type; no theorem depends on it). -/
def pyDictGet (j : JSON) (key : String) : Except String (Option JSON) :=
  match j with
  | .obj kvs => .ok (lookupKv kvs key)
  | _ => .error ("object has no attribute get: " ++ key)

/-- Python `x[k]`: the value when present, `KeyError` rendered as the
single-quoted key when absent, `TypeError` when `x` is not a dictionary
(the exact Python message names the receiver type; no theorem depends
on it). -/
def pySubscript (j : JSON) (key : String) : Except String JSON :=
  match j with
  | .obj kvs =>
    match lookupKv kvs key with
    | some v => .ok v
    | none => .error (squote key)
  | _ => .error ("object is not subscriptable: " ++ key)

/-- Python `method == "s"` where `method` may be any optional value:
true exactly when it is that string. -/
def isStr (j : Option JSON) (s : String) : Bool :=
  match j with
  | some (.str t) => t == s
  | _ => false

/-- Word-prefix test on character lists. -/
def leadsWith : List Char → List Char → Bool
  | [], _ => true
  | _ :: _, [] => false
  | a :: as, b :: bs => a == b && leadsWith as bs

/-- Substring occurrence on character lists. -/
def containsSub (need : List Char) : List Char → Bool
  | [] => need.isEmpty
  | c :: t => leadsWith need (c :: t) || containsSub need t

/-- Python `need in hay` on strings: substring occurrence (an empty
needle occurs in every string). -/
def strContains (hay need : String) : Bool :=
  containsSub need.data hay.data

/-- Python `b in hay` where `b` is an arbitrary value: a substring test
when `b` is a string, a `TypeError` otherwise. -/
def pyInStr (b : JSON) (hay : String) : Except String Bool :=
  match b with
  | .str s => .ok (strContains hay s)
  | _ => .error "in requires string as left operand"

/-- Python whitespace as recognized by `str.strip()`. -/
def pySpace (c : Char) : Bool :=
  c == ' ' || c == '\t' || c == '\n' || c == '\r' || c == Char.ofNat 11 || c == Char.ofNat 12

/-- Drop leading whitespace from a character list. -/
def dropSpaceLeft : List Char → List Char
  | [] => []
  | c :: t => if pySpace c then dropSpaceLeft t else c :: t

/-- Python `line.strip()`: whitespace removed from both ends. -/
def pyStrip (s : String) : String :=
  String.mk (dropSpaceLeft (dropSpaceLeft s.data.reverse).reverse)

/-- Outcome of one external process as the outside world determines it:
either the spawn fails with an exception message, or the process runs
for `duration` time units and terminates with an exit code and captured
output streams. -/
structure ProcResult where
  duration : Nat
  returncode : Int
  stdout : String
  stderr : String

/-- The injectable external-command capability: what the world answers
for a given argument vector.  Argument vectors are lists of the Python
values the server puts in them. -/
abbrev Runner := List JSON → Except String ProcResult

/-- The dictionary `run_command` returns.  Fields that the corresponding
Python dictionary lacks in some branches are `Option`s; `none` models an
absent key. -/
structure CmdResult where
  success : Bool
  returncode : Option Int
  stdout : Option String
  stderr : Option String
  error : Option String

/-- The wall-clock ceiling passed to `subprocess.run` (seconds). -/
def COMMAND_TIMEOUT : Nat := 30

/-- The fixed message of the timeout branch of `run_command`. -/
def timeoutMessage : String := "Command timed out after 30 seconds"

/-- `run_command`: normalizes the outcome of one external process.  A
completed run within the ceiling yields success iff the exit code is 0,
with exit code and both streams present; exceeding the ceiling yields
the fixed timeout dictionary; a spawn exception yields its message.  No
branch raises. -/
def run_command (outcome : Except String ProcResult) : CmdResult :=
  match outcome with
  | .ok r =>
    if r.duration ≤ COMMAND_TIMEOUT then
      ⟨r.returncode == 0, some r.returncode, some r.stdout, some r.stderr, none⟩
    else
      ⟨false, none, none, none, some timeoutMessage⟩
  | .error msg => ⟨false, none, none, none, some msg⟩

/-- Python `result["stdout"]` on a `run_command` dictionary. -/
def cmdStdout (r : CmdResult) : Except String String :=
  match r.stdout with
  | some s => .ok s
  | none => .error (squote "stdout")

/-- Python `result["stderr"]` on a `run_command` dictionary. -/
def cmdStderr (r : CmdResult) : Except String String :=
  match r.stderr with
  | some s => .ok s
  | none => .error (squote "stderr")

/-- The injected `json` codec: `loads` (with `none` for a decode error)
and the pretty-printing `dumps` used by `list_devices`. -/
structure PyEnv where
  loads : String → Option JSON
  dumpsPretty : JSON → String

/-- The one-text-block content payload every tool result wraps its
status string in. -/
def textContent (s : String) : JSON :=
  .obj [("content", .arr [.obj [("type", .str "text"), ("text", .str s)]])]

/-- The `initialize` protocol method: a fixed descriptor, parameters
ignored. -/
def initialize_result (_params : JSON) : JSON :=
  .obj [("protocolVersion", .str "2024-11-05"),
        ("capabilities", .obj [("tools", .obj [])]),
        ("serverInfo", .obj [("name", .str "ios-simulator-mcp"),
                             ("version", .str "1.0.0")])]

/-- The static tool catalog, transcribed from `list_tools`. -/
def toolCatalog : List JSON :=
  [.obj [("name", .str "list_devices"),
         ("description", .str "利用可能なiOSシミュレーターデバイスをリストアップ"),
         ("inputSchema", .obj [("type", .str "object"),
                               ("properties", .obj []),
                               ("required", .arr [])])],
   .obj [("name", .str "boot_device"),
         ("description", .str "指定されたデバイスを起動"),
         ("inputSchema", .obj [("type", .str "object"),
                               ("properties", .obj [("device_id", .obj [("type", .str "string"), ("description", .str "デバイスのUDIDまたはデバイス名")])]),
                               ("required", .arr [.str "device_id"])])],
   .obj [("name", .str "shutdown_device"),
         ("description", .str "指定されたデバイスをシャットダウン"),
         ("inputSchema", .obj [("type", .str "object"),
                               ("properties", .obj [("device_id", .obj [("type", .str "string"), ("description", .str "デバイスのUDIDまたはbooted")])]),
                               ("required", .arr [.str "device_id"])])],
   .obj [("name", .str "install_app"),
         ("description", .str "アプリをシミュレーターにインストール"),
         ("inputSchema", .obj [("type", .str "object"),
                               ("properties", .obj [("device_id", .obj [("type", .str "string"), ("description", .str "デバイスのUDIDまたはbooted")]),
                                                    ("app_path", .obj [("type", .str "string"), ("description", .str ".appファイルのパス")])]),
                               ("required", .arr [.str "device_id", .str "app_path"])])],
   .obj [("name", .str "launch_app"),
         ("description", .str "アプリを起動"),
         ("inputSchema", .obj [("type", .str "object"),
                               ("properties", .obj [("device_id", .obj [("type", .str "string"), ("description", .str "デバイスのUDIDまたはbooted")]),
                                                    ("bundle_id", .obj [("type", .str "string"), ("description", .str "アプリのBundle ID")])]),
                               ("required", .arr [.str "device_id", .str "bundle_id"])])],
   .obj [("name", .str "build_and_run"),
         ("description", .str "Xcodeプロジェクトをビルドしてシミュレーターで実行"),
         ("inputSchema", .obj [("type", .str "object"),
                               ("properties", .obj [("project_path", .obj [("type", .str "string"), ("description", .str "Xcodeプロジェクトのパス")]),
                                                    ("scheme", .obj [("type", .str "string"), ("description", .str "ビルドスキーム")]),
                                                    ("device_id", .obj [("type", .str "string"), ("description", .str "デバイスのUDIDまたはbooted"), ("default", .str "booted")])]),
                               ("required", .arr [.str "project_path", .str "scheme"])])],
   .obj [("name", .str "get_app_status"),
         ("description", .str "アプリの実行状態を確認"),
         ("inputSchema", .obj [("type", .str "object"),
                               ("properties", .obj [("device_id", .obj [("type", .str "string"), ("description", .str "デバイスのUDIDまたはbooted")]),
                                                    ("bundle_id", .obj [("type", .str "string"), ("description", .str "アプリのBundle ID")])]),
                               ("required", .arr [.str "device_id", .str "bundle_id"])])]]

/-- The `tools/list` protocol method. -/
def list_tools : JSON := .obj [("tools", .arr toolCatalog)]

/-- `list_devices`: lists simulator devices; on success re-serializes the
JSON stdout pretty-printed, a decode failure or command failure yields a
localized message. -/
def list_devices (env : PyEnv) (runner : Runner) : Except String JSON := do
  let result := run_command (runner [.str "xcrun", .str "simctl", .str "list", .str "devices", .str "available", .str "--json"])
  if result.success then do
    let out ← cmdStdout result
    match env.loads out with
    | some devices_data => pure (textContent (env.dumpsPretty devices_data))
    | none => pure (textContent ("JSON解析エラー: " ++ out))
  else do
    let err ← cmdStderr result
    pure (textContent ("コマンド失敗: " ++ err))

/-- `boot_device`: boots a device and reports a fixed phrase on success
or the failure phrase with stderr. -/
def boot_device (runner : Runner) (device_id : JSON) : Except String JSON := do
  let result := run_command (runner [.str "xcrun", .str "simctl", .str "boot", device_id])
  if result.success then
    pure (textContent "起動成功")
  else do
    let err ← cmdStderr result
    pure (textContent ("起動失敗: " ++ err))

/-- `shutdown_device`: shuts a device down. -/
def shutdown_device (runner : Runner) (device_id : JSON) : Except String JSON := do
  let result := run_command (runner [.str "xcrun", .str "simctl", .str "shutdown", device_id])
  if result.success then
    pure (textContent "シャットダウン成功")
  else do
    let err ← cmdStderr result
    pure (textContent ("シャットダウン失敗: " ++ err))

/-- `install_app`: installs an app bundle on a device. -/
def install_app (runner : Runner) (device_id app_path : JSON) : Except String JSON := do
  let result := run_command (runner [.str "xcrun", .str "simctl", .str "install", device_id, app_path])
  if result.success then
    pure (textContent "インストール成功")
  else do
    let err ← cmdStderr result
    pure (textContent ("インストール失敗: " ++ err))

/-- `launch_app`: launches an app by bundle id. -/
def launch_app (runner : Runner) (device_id bundle_id : JSON) : Except String JSON := do
  let result := run_command (runner [.str "xcrun", .str "simctl", .str "launch", device_id, bundle_id])
  if result.success then
    pure (textContent "アプリ起動成功")
  else do
    pure (textContent ("アプリ起動失敗: " ++ (← cmdStderr result)))

/-- The fixed argument vector `build_and_run` issues (no element depends
on any device identifier). -/
def build_and_run_argv (project_path scheme : JSON) : List JSON :=
  [.str "xcodebuild", .str "-project", project_path, .str "-scheme", scheme,
   .str "-destination", .str "generic/platform=iOS Simulator", .str "build"]

/-- `build_and_run`: runs the build command only; `device_id` is accepted
and never used by the body, exactly as in the source. -/
def build_and_run (runner : Runner) (project_path scheme _device_id : JSON) : Except String JSON := do
  let build_result := run_command (runner (build_and_run_argv project_path scheme))
  if build_result.success then do
    let out ← cmdStdout build_result
    pure (textContent ("ビルド成功:\n" ++ out))
  else do
    let err ← cmdStderr build_result
    pure (textContent ("ビルド失敗:\n" ++ err))

/-- `get_app_status`: inspects the process list; on success the status is
the running phrase iff the bundle id occurs in stdout, else the stopped
phrase; on failure the failure phrase with stderr. -/
def get_app_status (runner : Runner) (device_id bundle_id : JSON) : Except String JSON := do
  let result := run_command (runner [.str "xcrun", .str "simctl", .str "spawn", device_id, .str "launchctl", .str "list"])
  let status ←
    if result.success then do
      let out ← cmdStdout result
      let b ← pyInStr bundle_id out
      pure (if b then "実行中" else "停止中")
    else do
      let err ← cmdStderr result
      pure ("状態確認失敗: " ++ err)
  pure (textContent status)

/-- The seven registered tool names, in dispatch order. -/
def toolNames : List String :=
  ["list_devices", "boot_device", "shutdown_device", "install_app",
   "launch_app", "build_and_run", "get_app_status"]

/-- Dispatch by tool name once `name` and `arguments` are read from the
parameters.  Required arguments are extracted by faulting subscription
in source order; an unrecognized name yields a normal result value, not
a fault. -/
def call_tool_core (env : PyEnv) (runner : Runner) (name : Option JSON) (arguments : JSON) : Except String JSON :=
  if isStr name "list_devices" then
    list_devices env runner
  else if isStr name "boot_device" then do
    let d ← pySubscript arguments "device_id"
    boot_device runner d
  else if isStr name "shutdown_device" then do
    let d ← pySubscript arguments "device_id"
    shutdown_device runner d
  else if isStr name "install_app" then do
    let d ← pySubscript arguments "device_id"
    let a ← pySubscript arguments "app_path"
    install_app runner d a
  else if isStr name "launch_app" then do
    let d ← pySubscript arguments "device_id"
    let b ← pySubscript arguments "bundle_id"
    launch_app runner d b
  else if isStr name "build_and_run" then do
    let p ← pySubscript arguments "project_path"
    let s ← pySubscript arguments "scheme"
    let dOpt ← pyDictGet arguments "device_id"
    build_and_run runner p s (dOpt.getD (.str "booted"))
  else if isStr name "get_app_status" then do
    let d ← pySubscript arguments "device_id"
    let b ← pySubscript arguments "bundle_id"
    get_app_status runner d b
  else
    pure (.obj [("error", .str ("Unknown tool: " ++ pyStrOpt name))])

/-- `call_tool`: reads the tool name and the arguments mapping
(defaulting to an empty mapping) from the parameters and dispatches. -/
def call_tool (env : PyEnv) (runner : Runner) (params : JSON) : Except String JSON := do
  let name ← pyDictGet params "name"
  let argumentsOpt ← pyDictGet params "arguments"
  call_tool_core env runner name (argumentsOpt.getD (.obj []))

/-- A success envelope: jsonrpc tag, echoed id, result. -/
def mkResult (rid : JSON) (r : JSON) : JSON :=
  .obj [("jsonrpc", .str "2.0"), ("id", rid), ("result", r)]

/-- An error envelope: jsonrpc tag, echoed id, error object. -/
def mkError (rid : JSON) (code : Int) (msg : String) : JSON :=
  .obj [("jsonrpc", .str "2.0"), ("id", rid),
        ("error", .obj [("code", .int code), ("message", .str msg)])]

/-- The body of `handle_jsonrpc_request` after the three `request.get`
calls: method routing, with every fault of the tools/call branch caught
and converted to a -32603 error envelope. -/
def handle_core (env : PyEnv) (runner : Runner) (method : Option JSON) (params rid : JSON) : JSON :=
  if isStr method "initialize" then
    mkResult rid (initialize_result params)
  else if isStr method "tools/list" then
    mkResult rid list_tools
  else if isStr method "tools/call" then
    match call_tool env runner params with
    | .ok r => mkResult rid r
    | .error e => mkError rid (-32603) e
  else
    mkError rid (-32601) ("Method not found: " ++ pyStrOpt method)

/-- `handle_jsonrpc_request`: reads method, params (defaulting to an
empty mapping) and id (defaulting to null) from the request, then routes.
The three reads precede the try block in the source, so a non-dictionary
request faults out of the function. -/
def handle_jsonrpc_request (env : PyEnv) (runner : Runner) (request : JSON) : Except String JSON := do
  let method ← pyDictGet request "method"
  let paramsOpt ← pyDictGet request "params"
  let params := paramsOpt.getD (.obj [])
  let ridOpt ← pyDictGet request "id"
  let rid := ridOpt.getD .null
  pure (handle_core env runner method params rid)

/-- The fixed parse-error response of the transport loop. -/
def parse_error_response : JSON :=
  .obj [("jsonrpc", .str "2.0"), ("id", .null),
        ("error", .obj [("code", .int (-32700)), ("message", .str "Parse error")])]

/-- The loop-level fault response (outer except branch of `main`). -/
def loop_fault_response (msg : String) : JSON :=
  .obj [("jsonrpc", .str "2.0"), ("id", .null),
        ("error", .obj [("code", .int (-32603)), ("message", .str msg)])]

/-- One decoded request through the engine, with any escaping fault
converted by the outer except branch of `main`. -/
def process_request (env : PyEnv) (runner : Runner) (request : JSON) : JSON :=
  match handle_jsonrpc_request env runner request with
  | .ok resp => resp
  | .error e => loop_fault_response e

/-- The transport loop over a finite input stream: strips each line,
skips blanks, answers undecodable lines with the parse-error response,
and feeds decoded requests to the engine; one output line per non-blank
input line. -/
def main_loop (env : PyEnv) (runner : Runner) : List String → List JSON
  | [] => []
  | line :: rest =>
    if pyStrip line = "" then main_loop env runner rest
    else
      match env.loads (pyStrip line) with
      | some request => process_request env runner request :: main_loop env runner rest
      | none => parse_error_response :: main_loop env runner rest

/-- A deterministic external world for witnesses: every command launches
and completes immediately with exit code 0 and empty output. -/
def stubRunner : Runner := fun _ => .ok ⟨1, 0, "", ""⟩

/-- A codec stub for witnesses: decoding always fails. -/
def stubEnv : PyEnv := ⟨fun _ => none, fun _ => ""⟩

theorem exc_bind_ok {α β : Type} (a : α) (f : α → Except String β) :
    (Except.ok a : Except String α) >>= f = f a := rfl

theorem exc_bind_error {α β : Type} (e : String) (f : α → Except String β) :
    (Except.error e : Except String α) >>= f = Except.error e := rfl

/-- On a dictionary request the engine cannot fault: it returns the
routed envelope built from the three header reads. -/
theorem handle_on_obj (env : PyEnv) (runner : Runner) (kvs : List (String × JSON)) :
    handle_jsonrpc_request env runner (.obj kvs) =
      .ok (handle_core env runner (lookupKv kvs "method")
        ((lookupKv kvs "params").getD (.obj []))
        ((lookupKv kvs "id").getD .null)) := rfl

/-- On a dictionary parameter object, `call_tool` reduces to the
dispatch core. -/
theorem call_tool_on_obj (env : PyEnv) (runner : Runner) (pk : List (String × JSON)) :
    call_tool env runner (.obj pk) =
      call_tool_core env runner (lookupKv pk "name")
        ((lookupKv pk "arguments").getD (.obj [])) := rfl

/-- Every routed envelope is a success envelope or an error envelope,
both carrying the request id. -/
theorem handle_core_shape (env : PyEnv) (runner : Runner) (method : Option JSON) (params rid : JSON) :
    (∃ r, handle_core env runner method params rid = mkResult rid r) ∨
    (∃ c msg, handle_core env runner method params rid = mkError rid c msg) := by
  unfold handle_core
  split
  · exact Or.inl ⟨_, rfl⟩
  split
  · exact Or.inl ⟨_, rfl⟩
  split
  · rcases call_tool env runner params with e | r
    · exact Or.inr ⟨_, _, rfl⟩
    · exact Or.inl ⟨_, rfl⟩
  · exact Or.inr ⟨_, _, rfl⟩

theorem mkResult_lookup_jsonrpc (rid r : JSON) :
    (mkResult rid r).lookup "jsonrpc" = some (.str "2.0") := rfl

theorem mkResult_lookup_id (rid r : JSON) : (mkResult rid r).lookup "id" = some rid := rfl

theorem mkResult_lookup_result (rid r : JSON) : (mkResult rid r).lookup "result" = some r := rfl

theorem mkResult_lookup_error (rid r : JSON) : (mkResult rid r).lookup "error" = none := rfl

theorem mkError_lookup_jsonrpc (rid : JSON) (c : Int) (m : String) :
    (mkError rid c m).lookup "jsonrpc" = some (.str "2.0") := rfl

theorem mkError_lookup_id (rid : JSON) (c : Int) (m : String) :
    (mkError rid c m).lookup "id" = some rid := rfl

theorem mkError_lookup_result (rid : JSON) (c : Int) (m : String) :
    (mkError rid c m).lookup "result" = none := rfl

theorem mkError_lookup_error (rid : JSON) (c : Int) (m : String) :
    (mkError rid c m).lookup "error" = some (.obj [("code", .int c), ("message", .str m)]) := rfl

/-- Claim C1: for every request (a dictionary, as the data model fixes),
the engine returns a response carrying jsonrpc 2.0, exactly one of a
result member or an error member, and the request id echoed verbatim,
null when the request has no id field. -/
theorem handle_response_envelope (env : PyEnv) (runner : Runner) (kvs : List (String × JSON)) :
    ∃ resp : JSON,
      handle_jsonrpc_request env runner (.obj kvs) = .ok resp ∧
      resp.lookup "jsonrpc" = some (.str "2.0") ∧
      resp.lookup "id" = some ((lookupKv kvs "id").getD .null) ∧
      ((resp.lookup "result").isSome ↔ (resp.lookup "error").isNone) := by
  obtain ⟨r, hr⟩ | ⟨c, msg, hr⟩ :=
    handle_core_shape env runner (lookupKv kvs "method")
      ((lookupKv kvs "params").getD (.obj [])) ((lookupKv kvs "id").getD .null)
  · refine ⟨_, handle_on_obj env runner kvs, ?_, ?_, ?_⟩ <;> rw [hr]
    · exact mkResult_lookup_jsonrpc _ _
    · exact mkResult_lookup_id _ _
    · rw [mkResult_lookup_result, mkResult_lookup_error]
      simp
  · refine ⟨_, handle_on_obj env runner kvs, ?_, ?_, ?_⟩ <;> rw [hr]
    · exact mkError_lookup_jsonrpc _ _ _
    · exact mkError_lookup_id _ _ _
    · rw [mkError_lookup_result, mkError_lookup_error]
      simp

/-- Claim C2: a tools/call whose tool name is not one of the seven
registered names yields a successful result value of the shape
error: Unknown tool: name, not a fault. -/
theorem call_tool_unknown_name (env : PyEnv) (runner : Runner) (pk : List (String × JSON)) (name : String)
    (h1 : lookupKv pk "name" = some (.str name))
    (h2 : name ∉ toolNames) :
    call_tool env runner (.obj pk) =
      .ok (.obj [("error", .str ("Unknown tool: " ++ name))]) := by
  rw [call_tool_on_obj, h1]
  simp only [toolNames, List.mem_cons, List.not_mem_nil, or_false, not_or] at h2
  obtain ⟨n1, n2, n3, n4, n5, n6, n7⟩ := h2
  unfold call_tool_core
  simp [isStr, n1, n2, n3, n4, n5, n6, n7, pyStrOpt, pyStr]
  rfl

/-- Witness for C2 at a concrete unregistered name. -/
theorem call_tool_unknown_name_witness :
    call_tool stubEnv stubRunner (.obj [("name", .str "frobnicate"), ("arguments", .obj [])]) =
      .ok (.obj [("error", .str "Unknown tool: frobnicate")]) := by
  have h := call_tool_unknown_name stubEnv stubRunner
    [("name", .str "frobnicate"), ("arguments", .obj [])] "frobnicate" rfl (by decide)
  exact h

/-- The required fields each registered tool extracts from the caller's
arguments mapping, in source order of extraction. -/
def toolRequiredFields : List (String × List String) :=
  [("list_devices", []),
   ("boot_device", ["device_id"]),
   ("shutdown_device", ["device_id"]),
   ("install_app", ["device_id", "app_path"]),
   ("launch_app", ["device_id", "bundle_id"]),
   ("build_and_run", ["project_path", "scheme"]),
   ("get_app_status", ["device_id", "bundle_id"])]

/-- The first field of a required-field list that an arguments mapping
lacks: the field whose sequential extraction raises the KeyError. -/
def firstMissing (ak : List (String × JSON)) : List String → Option String
  | [] => none
  | f :: fs =>
    match lookupKv ak f with
    | none => some f
    | some _ => firstMissing ak fs

/-- A faulting dispatch is caught at the engine boundary and reported as
a -32603 error envelope carrying the fault description. -/
theorem handle_tools_call_error (env : PyEnv) (runner : Runner) (kvs : List (String × JSON)) (e : String)
    (hm : lookupKv kvs "method" = some (.str "tools/call"))
    (hc : call_tool env runner ((lookupKv kvs "params").getD (.obj [])) = .error e) :
    handle_jsonrpc_request env runner (.obj kvs) =
      .ok (mkError ((lookupKv kvs "id").getD .null) (-32603) e) := by
  rw [handle_on_obj, hm]
  unfold handle_core
  rw [hc]
  rfl

/-- When some required field is missing from the arguments mapping, the
first missing one in extraction order exists, is required, and is
missing. -/
theorem firstMissing_of_missing (ak : List (String × JSON)) (flds : List String) (fld : String)
    (hmem : fld ∈ flds) (hmiss : lookupKv ak fld = none) :
    ∃ f, firstMissing ak flds = some f ∧ f ∈ flds ∧ lookupKv ak f = none := by
  induction flds with
  | nil => cases hmem
  | cons g gs ih =>
    rcases h : lookupKv ak g with _ | v
    · exact ⟨g, by simp [firstMissing, h], by simp, h⟩
    · rcases List.mem_cons.mp hmem with rfl | hmem2
      · rw [h] at hmiss
        cases hmiss
      · obtain ⟨f, hf1, hf2, hf3⟩ := ih hmem2
        exact ⟨f, by simp [firstMissing, h, hf1], by simp [hf2], hf3⟩

/-- A dispatch of a registered tool whose arguments mapping lacks some
required field faults with the KeyError for the first missing field in
extraction order. -/
theorem call_tool_missing_required_field (env : PyEnv) (runner : Runner)
    (pk ak : List (String × JSON)) (nm f : String) (flds : List String)
    (htool : (nm, flds) ∈ toolRequiredFields)
    (hn : lookupKv pk "name" = some (.str nm))
    (ha : (lookupKv pk "arguments").getD (.obj []) = .obj ak)
    (hf : firstMissing ak flds = some f) :
    call_tool env runner (.obj pk) = .error (squote f) := by
  rw [call_tool_on_obj, hn, ha]
  simp only [toolRequiredFields, List.mem_cons, List.not_mem_nil, or_false, Prod.mk.injEq] at htool
  rcases htool with ⟨rfl, rfl⟩ | ⟨rfl, rfl⟩ | ⟨rfl, rfl⟩ | ⟨rfl, rfl⟩ | ⟨rfl, rfl⟩ | ⟨rfl, rfl⟩ | ⟨rfl, rfl⟩
  · simp [firstMissing] at hf
  · rcases h1 : lookupKv ak "device_id" with _ | v
    · simp only [firstMissing, h1] at hf
      obtain rfl := Option.some.inj hf
      unfold call_tool_core
      simp [isStr, pySubscript, h1, exc_bind_error]
    · simp [firstMissing, h1] at hf
  · rcases h1 : lookupKv ak "device_id" with _ | v
    · simp only [firstMissing, h1] at hf
      obtain rfl := Option.some.inj hf
      unfold call_tool_core
      simp [isStr, pySubscript, h1, exc_bind_error]
    · simp [firstMissing, h1] at hf
  · rcases h1 : lookupKv ak "device_id" with _ | v
    · simp only [firstMissing, h1] at hf
      obtain rfl := Option.some.inj hf
      unfold call_tool_core
      simp [isStr, pySubscript, h1, exc_bind_error]
    · rcases h2 : lookupKv ak "app_path" with _ | w
      · simp only [firstMissing, h1, h2] at hf
        obtain rfl := Option.some.inj hf
        unfold call_tool_core
        simp [isStr, pySubscript, h1, h2, exc_bind_ok, exc_bind_error]
      · simp [firstMissing, h1, h2] at hf
  · rcases h1 : lookupKv ak "device_id" with _ | v
    · simp only [firstMissing, h1] at hf
      obtain rfl := Option.some.inj hf
      unfold call_tool_core
      simp [isStr, pySubscript, h1, exc_bind_error]
    · rcases h2 : lookupKv ak "bundle_id" with _ | w
      · simp only [firstMissing, h1, h2] at hf
        obtain rfl := Option.some.inj hf
        unfold call_tool_core
        simp [isStr, pySubscript, h1, h2, exc_bind_ok, exc_bind_error]
      · simp [firstMissing, h1, h2] at hf
  · rcases h1 : lookupKv ak "project_path" with _ | v
    · simp only [firstMissing, h1] at hf
      obtain rfl := Option.some.inj hf
      unfold call_tool_core
      simp [isStr, pySubscript, h1, exc_bind_error]
    · rcases h2 : lookupKv ak "scheme" with _ | w
      · simp only [firstMissing, h1, h2] at hf
        obtain rfl := Option.some.inj hf
        unfold call_tool_core
        simp [isStr, pySubscript, h1, h2, exc_bind_ok, exc_bind_error]
      · simp [firstMissing, h1, h2] at hf
  · rcases h1 : lookupKv ak "device_id" with _ | v
    · simp only [firstMissing, h1] at hf
      obtain rfl := Option.some.inj hf
      unfold call_tool_core
      simp [isStr, pySubscript, h1, exc_bind_error]
    · rcases h2 : lookupKv ak "bundle_id" with _ | w
      · simp only [firstMissing, h1, h2] at hf
        obtain rfl := Option.some.inj hf
        unfold call_tool_core
        simp [isStr, pySubscript, h1, h2, exc_bind_ok, exc_bind_error]
      · simp [firstMissing, h1, h2] at hf

/-- Claim C3: a tools/call for a known tool whose arguments mapping is
missing any required field faults at the sequential field lookups (on
the first missing field, in extraction order); the fault is caught at
the engine boundary and reported as a -32603 protocol error whose
message is the KeyError of that field, preserving the request id. -/
theorem tools_call_missing_required (env : PyEnv) (runner : Runner)
    (kvs pk ak : List (String × JSON)) (nm fld : String) (flds : List String)
    (htool : (nm, flds) ∈ toolRequiredFields)
    (hm : lookupKv kvs "method" = some (.str "tools/call"))
    (hp : (lookupKv kvs "params").getD (.obj []) = .obj pk)
    (hn : lookupKv pk "name" = some (.str nm))
    (ha : (lookupKv pk "arguments").getD (.obj []) = .obj ak)
    (hmem : fld ∈ flds)
    (hmiss : lookupKv ak fld = none) :
    ∃ f, f ∈ flds ∧ lookupKv ak f = none ∧
      handle_jsonrpc_request env runner (.obj kvs) =
        .ok (mkError ((lookupKv kvs "id").getD .null) (-32603) (squote f)) := by
  obtain ⟨f, hf1, hf2, hf3⟩ := firstMissing_of_missing ak flds fld hmem hmiss
  refine ⟨f, hf2, hf3, handle_tools_call_error env runner kvs (squote f) hm ?_⟩
  rw [hp]
  exact call_tool_missing_required_field env runner pk ak nm f flds htool hn ha hf1

/-- Witness for C3: install_app with device_id present but app_path
absent, id 2, yields the -32603 error envelope with id 2 (the missing
field found is app_path). -/
theorem tools_call_missing_required_witness :
    ∃ f, f ∈ ["device_id", "app_path"] ∧
      lookupKv [("device_id", JSON.str "X")] f = none ∧
      handle_jsonrpc_request stubEnv stubRunner
        (.obj [("method", .str "tools/call"),
               ("params", .obj [("name", .str "install_app"),
                                ("arguments", .obj [("device_id", .str "X")])]),
               ("id", .int 2)]) =
        .ok (mkError (.int 2) (-32603) (squote f)) := by
  have h := tools_call_missing_required stubEnv stubRunner
    [("method", .str "tools/call"),
     ("params", .obj [("name", .str "install_app"),
                      ("arguments", .obj [("device_id", .str "X")])]),
     ("id", .int 2)]
    [("name", .str "install_app"), ("arguments", .obj [("device_id", .str "X")])]
    [("device_id", .str "X")] "install_app" "app_path" ["device_id", "app_path"]
    (by simp [toolRequiredFields]) rfl rfl rfl rfl (by simp) rfl
  exact h

/-- Claim C4: a request whose method is none of the three protocol
methods is answered with a -32601 error envelope whose message names the
method, the request id preserved. -/
theorem handle_unknown_method (env : PyEnv) (runner : Runner) (kvs : List (String × JSON)) (m : String)
    (hm : lookupKv kvs "method" = some (.str m))
    (hnot : m ∉ ["initialize", "tools/list", "tools/call"]) :
    handle_jsonrpc_request env runner (.obj kvs) =
      .ok (mkError ((lookupKv kvs "id").getD .null) (-32601) ("Method not found: " ++ m)) := by
  simp only [List.mem_cons, List.not_mem_nil, or_false, not_or] at hnot
  obtain ⟨h1, h2, h3⟩ := hnot
  rw [handle_on_obj, hm]
  unfold handle_core
  simp [isStr, h1, h2, h3, pyStrOpt, pyStr]

/-- Witness for C4 at a concrete unknown method. -/
theorem handle_unknown_method_witness :
    handle_jsonrpc_request stubEnv stubRunner
      (.obj [("method", .str "resources/list"), ("id", .int 7)]) =
      .ok (mkError (.int 7) (-32601) "Method not found: resources/list") := by
  have h := handle_unknown_method stubEnv stubRunner
    [("method", .str "resources/list"), ("id", .int 7)] "resources/list" rfl (by decide)
  exact h

/-- Claim C5: the tools/list catalog names exactly the seven registered
tools in order, each with its documented required-field sequence, and
build_and_run declares an optional device_id defaulting to booted. -/
theorem list_tools_catalog :
    list_tools.lookup "tools" = some (.arr toolCatalog) ∧
    toolCatalog.map (fun t => t.lookup "name") =
      (toolNames.map (fun n => some (.str n))) ∧
    toolCatalog.map (fun t => (t.lookup "inputSchema").bind (fun s => s.lookup "required")) =
      [some (.arr []),
       some (.arr [.str "device_id"]),
       some (.arr [.str "device_id"]),
       some (.arr [.str "device_id", .str "app_path"]),
       some (.arr [.str "device_id", .str "bundle_id"]),
       some (.arr [.str "project_path", .str "scheme"]),
       some (.arr [.str "device_id", .str "bundle_id"])] ∧
    toolCatalog.map (fun t => (t.lookup "inputSchema").bind
        (fun s => (s.lookup "properties").bind
          (fun p => (p.lookup "device_id").bind (fun d => d.lookup "default")))) =
      [none, none, none, none, none, some (.str "booted"), none] :=
  ⟨rfl, rfl, rfl, rfl⟩

/-- Claim C6: the outcome of `run_command` has its success flag true
exactly when the process launched and terminated within the ceiling with
exit code 0, and carries an exit code exactly when the process ran to
completion (no exit code on timeout or launch failure). -/
theorem run_command_success_and_exitcode (outcome : Except String ProcResult) :
    ((run_command outcome).success = true ↔
      ∃ r, outcome = .ok r ∧ r.duration ≤ COMMAND_TIMEOUT ∧ r.returncode = 0) ∧
    ((run_command outcome).returncode.isSome = true ↔
      ∃ r, outcome = .ok r ∧ r.duration ≤ COMMAND_TIMEOUT) := by
  cases outcome with
  | error msg => simp [run_command]
  | ok r =>
    by_cases h : r.duration ≤ COMMAND_TIMEOUT
    · simp [run_command, h, beq_iff_eq]
    · simp [run_command, h]

/-- Claim C7: a process exceeding the 30-unit ceiling yields a returned
outcome (no fault) with success false, no exit code, no captured
streams, and the fixed timeout message, which contains the words timed
out. -/
theorem run_command_timeout (r : ProcResult) (h : COMMAND_TIMEOUT < r.duration) :
    run_command (.ok r) = ⟨false, none, none, none, some timeoutMessage⟩ ∧
    strContains timeoutMessage "timed out" = true := by
  constructor
  · simp only [run_command]
    rw [if_neg (Nat.not_le.mpr h)]
  · decide

/-- Witness for C7 at a concrete 31-unit run. -/
theorem run_command_timeout_witness :
    run_command (.ok ⟨31, 0, "", ""⟩) = ⟨false, none, none, none, some timeoutMessage⟩ ∧
    strContains timeoutMessage "timed out" = true :=
  run_command_timeout ⟨31, 0, "", ""⟩ (by decide)

/-- Claim C8: a non-blank input line that fails to decode makes the
transport loop emit exactly the parse-error response and then process
the remaining lines. -/
theorem main_loop_parse_error (env : PyEnv) (runner : Runner) (line : String) (rest : List String)
    (hne : pyStrip line ≠ "")
    (hbad : env.loads (pyStrip line) = none) :
    main_loop env runner (line :: rest) =
      parse_error_response :: main_loop env runner rest := by
  conv_lhs => rw [main_loop]
  rw [if_neg hne, hbad]

/-- Witness for C8: one undecodable line followed by a blank line. -/
theorem main_loop_parse_error_witness :
    main_loop stubEnv stubRunner ["not-json", " "] = [parse_error_response] := by
  have h := main_loop_parse_error stubEnv stubRunner "not-json" [" "] (by decide) rfl
  rw [h]
  rfl

/-- A runner whose process-list command always exceeds the ceiling. -/
def timeout_runner : Runner := fun _ => .ok ⟨31, 0, "", ""⟩

/-- Claim C9 counterexample: when the process-list command fails by
timing out, `get_app_status` produces no content payload at all: the
stderr lookup on the timeout dictionary faults with the KeyError for
stderr, so no text block carries the command stderr. -/
theorem get_app_status_timeout_no_payload :
    get_app_status timeout_runner (.str "booted") (.str "com.example.app") =
      .error (squote "stderr") := rfl

/-- Claim C9 as amended: when the process-list command runs to
completion, a zero exit code yields the running phrase iff the bundle id
occurs in stdout and the stopped phrase otherwise, and a nonzero exit
code yields the failure phrase carrying stderr; when the outcome has no
stderr (timeout or launch failure) the handler faults instead. -/
theorem get_app_status_completed (runner : Runner) (device_id : JSON) (b : String) (r : ProcResult)
    (hr : runner [.str "xcrun", .str "simctl", .str "spawn", device_id, .str "launchctl", .str "list"] = .ok r)
    (hdur : r.duration ≤ COMMAND_TIMEOUT) :
    get_app_status runner device_id (.str b) =
      .ok (textContent (if r.returncode = 0 then
          (if strContains r.stdout b then "実行中" else "停止中")
        else "状態確認失敗: " ++ r.stderr)) := by
  unfold get_app_status
  rw [hr]
  by_cases h0 : r.returncode = 0
  · simp [run_command, hdur, h0, cmdStdout, pyInStr, exc_bind_ok]
  · simp [run_command, hdur, h0, cmdStdout, cmdStderr, pyInStr, exc_bind_ok]

/-- A runner answering a fixed completed process listing. -/
def status_runner : Runner := fun _ => .ok ⟨1, 0, "UIKitApplication:com.example.app", ""⟩

/-- Witness for the amended C9: the bundle id occurs in stdout, so the
status is the running phrase. -/
theorem get_app_status_completed_witness :
    get_app_status status_runner (.str "booted") (.str "com.example.app") =
      .ok (textContent "実行中") := by
  have h := get_app_status_completed status_runner (.str "booted") "com.example.app"
    ⟨1, 0, "UIKitApplication:com.example.app", ""⟩ rfl (by decide)
  rw [h]
  rfl

/-- Claim C10: the result of `build_and_run` does not depend on the
device identifier: two calls with the same project path and scheme, and
a world answering the same outcome for the one issued argument vector
(which never mentions the device identifier), return identical payloads. -/
theorem build_and_run_ignores_device_id (runner₁ runner₂ : Runner) (pp sch d d' : JSON)
    (h : runner₁ (build_and_run_argv pp sch) = runner₂ (build_and_run_argv pp sch)) :
    build_and_run runner₁ pp sch d = build_and_run runner₂ pp sch d' := by
  unfold build_and_run
  rw [h]

/-- Witness for C10 at two distinct device identifiers. -/
theorem build_and_run_ignores_device_id_witness :
    build_and_run stubRunner (.str "App.xcodeproj") (.str "App") (.str "booted") =
      build_and_run stubRunner (.str "App.xcodeproj") (.str "App") (.str "ABCD-1234") :=
  build_and_run_ignores_device_id stubRunner stubRunner
    (.str "App.xcodeproj") (.str "App") (.str "booted") (.str "ABCD-1234") rfl
